import Mathlib

/-!
Shallow embedding of the `figures` report generator
(`src/figures/{utils,get,put,sync,main}.py`).

A pandas `DataFrame` is modelled column-wise: a list of named columns, each
column a list of cells in row order.  Cells are either numbers (exact
rationals standing for the Python floats) or strings (the `Routine` column
of `latency.csv`).  A missing-column lookup is modelled as an
`Except.error` carrying the column name, mirroring the pandas `KeyError`
that aborts the surrounding chart function; arithmetic on a non-numeric
column is likewise an error.  The file system is a partial map from paths
to parsed tables: `none` models both a nonexistent CSV and an unparsable
one (both are caught inside `read_data`, which returns `None`).
-/

inductive Cell where
  | num (q : ℚ)
  | str (s : String)
deriving DecidableEq

def Cell.asNum : Cell → Option ℚ
  | num q => some q
  | str _ => none

instance {ε α : Type} [DecidableEq ε] [DecidableEq α] : DecidableEq (Except ε α)
  | Except.ok a, Except.ok b =>
      if h : a = b then isTrue (by rw [h]) else isFalse (by intro hh; cases hh; exact h rfl)
  | Except.ok _, Except.error _ => isFalse (by intro h; cases h)
  | Except.error _, Except.ok _ => isFalse (by intro h; cases h)
  | Except.error a, Except.error b =>
      if h : a = b then isTrue (by rw [h]) else isFalse (by intro hh; cases hh; exact h rfl)

structure Table where
  cols : List (String × List Cell)
deriving DecidableEq

/-- First column with the given name (pandas column names are unique). -/
def lookupCol : List (String × List Cell) → String → Option (List Cell)
  | [], _ => none
  | p :: rest, name => if p.1 = name then some p.2 else lookupCol rest name

/-- `df.columns` of pandas: the column names in order. -/
def Table.columns (t : Table) : List String := t.cols.map Prod.fst

/-- `name in df.columns` of Python. -/
def Table.hasCol (t : Table) (name : String) : Bool :=
  (lookupCol t.cols name).isSome

/-- `df[name]` raw cells; pandas raises `KeyError` on a missing column. -/
def Table.getColCells (t : Table) (name : String) : Except String (List Cell) :=
  match lookupCol t.cols name with
  | some cs => Except.ok cs
  | none => Except.error name

/-- A numeric series: every cell of the column must be a number. -/
def cellsToNums : List Cell → Option (List ℚ)
  | [] => some []
  | c :: rest =>
      match c.asNum, cellsToNums rest with
      | some q, some qs => some (q :: qs)
      | _, _ => none

/-- `df[name]` used in arithmetic: the column must exist and be numeric. -/
def Table.getNumCol (t : Table) (name : String) : Except String (List ℚ) :=
  match t.getColCells name with
  | Except.ok cells =>
      match cellsToNums cells with
      | some qs => Except.ok qs
      | none => Except.error name
  | Except.error e => Except.error e

/-- `df[name] = values`: overwrite the column in place if present, else
append it as the last column (pandas assignment semantics). -/
def Table.setCol (t : Table) (name : String) (vals : List Cell) : Table :=
  if t.hasCol name then
    ⟨t.cols.map (fun p => if p.1 = name then (name, vals) else p)⟩
  else
    ⟨t.cols ++ [(name, vals)]⟩

def numCol (qs : List ℚ) : List Cell := qs.map Cell.num

/-- One row of the bandwidth derivation of `get.py`/`put.py` lines 125-127:
`size / latency * 0.95367431640625` (MiB/s). -/
def bwFormula (size lat : ℚ) : ℚ := size / lat * 0.95367431640625

/-- The elementwise series `df["Msg Size (b)"] / df[latName] * 0.95367431640625`. -/
def bwSeries (df : Table) (latName : String) : Except String (List ℚ) :=
  match df.getNumCol "Msg Size (b)", df.getNumCol latName with
  | Except.ok sizes, Except.ok lats => Except.ok (List.zipWith bwFormula sizes lats)
  | Except.error e, _ => Except.error e
  | _, Except.error e => Except.error e

/-- The shared recomputation body, `get.py`/`put.py` lines 125-127: three
column assignments, each reading the table updated so far. -/
def computeBandwidthColumns (df : Table) : Except String Table :=
  match bwSeries df "C (raw, us)" with
  | Except.error e => Except.error e
  | Except.ok c =>
      let df1 := df.setCol "C MiBPS" (numCol c)
      match bwSeries df1 "RS (raw, us)" with
      | Except.error e => Except.error e
      | Except.ok rs =>
          let df2 := df1.setCol "RS MiBPS" (numCol rs)
          match bwSeries df2 "Py (raw, us)" with
          | Except.error e => Except.error e
          | Except.ok py => Except.ok (df2.setCol "Py MiBPS" (numCol py))

/-- Metric-deriving step of `get.generate_bandwidth_plot` (get.py 122-127):
recompute unless the column `"C MiBPS"` is present. -/
def get_deriveBandwidth (df : Table) : Except String Table :=
  if df.hasCol "C MiBPS" then Except.ok df else computeBandwidthColumns df

/-- Metric-deriving step of `put.generate_bandwidth_plot` (put.py 122-127):
recompute unless `"C MiBPS"` or `"C mibps"` is present. -/
def put_deriveBandwidth (df : Table) : Except String Table :=
  if df.hasCol "C MiBPS" || df.hasCol "C mibps" then Except.ok df
  else computeBandwidthColumns df

/-! ### Loader, writer and chart generators

`scenario` stands for the Python parameter `output_prefix` ("local"/"net").
A chart function returns the list of files it saves, or the name of the
missing column whose lookup aborted it (the pandas `KeyError`).
-/

/-- The file system: parsed table per path, `none` for a nonexistent or
unparsable CSV (both caught inside `read_data`). -/
def FileSystem := String → Option Table

/-- `os.path.join("data", directory, filename)` of `utils.read_data`. -/
def dataPath (directory filename : String) : String :=
  "data/" ++ directory ++ "/" ++ filename

/-- `utils.read_data`: parse the CSV, returning `None` on any failure
(the `try/except` swallows the exception). -/
def read_data (fs : FileSystem) (filename directory : String) : Option Table :=
  fs (dataPath directory filename)

/-- `utils.save_plot`: the path of the written file,
`os.path.join("figures", category, filename)`. -/
def save_plot (filename category : String) : String :=
  "figures/" ++ category ++ "/" ++ filename

/-- `get.generate_latency_plot_with_scale`: reads the four data columns
(each a potential `KeyError`), then saves one PDF. -/
def get_latency_plot_with_scale (df : Table) (scenario scale : String) :
    Except String String :=
  match df.getColCells "Msg Size (b)" with
  | Except.error e => Except.error e
  | Except.ok _ =>
    match df.getColCells "C (raw, us)" with
    | Except.error e => Except.error e
    | Except.ok _ =>
      match df.getColCells "RS (raw, us)" with
      | Except.error e => Except.error e
      | Except.ok _ =>
        match df.getColCells "Py (raw, us)" with
        | Except.error e => Except.error e
        | Except.ok _ =>
          let scaleTag := if scale = "log" then "_log" else "_linear"
          Except.ok (save_plot ("get_" ++ scenario ++ "_latency" ++ scaleTag ++ ".pdf") "get")

/-- `get.generate_latency_plot`: load, skip on absent data, else draw the
linear and the log variant. -/
def get_generate_latency_plot (fs : FileSystem) (filename directory scenario : String) :
    Except String (List String) :=
  match read_data fs filename directory with
  | none => Except.ok []
  | some df =>
    match get_latency_plot_with_scale df scenario "linear" with
    | Except.error e => Except.error e
    | Except.ok a =>
      match get_latency_plot_with_scale df scenario "log" with
      | Except.error e => Except.error e
      | Except.ok b => Except.ok [a, b]

/-- `get.generate_bandwidth_plot_with_scale`: reads the size column and the
three fixed-name bandwidth columns, then saves one PDF. -/
def get_bandwidth_plot_with_scale (df : Table) (scenario scale : String) :
    Except String String :=
  match df.getColCells "Msg Size (b)" with
  | Except.error e => Except.error e
  | Except.ok _ =>
    match df.getColCells "C MiBPS" with
    | Except.error e => Except.error e
    | Except.ok _ =>
      match df.getColCells "RS MiBPS" with
      | Except.error e => Except.error e
      | Except.ok _ =>
        match df.getColCells "Py MiBPS" with
        | Except.error e => Except.error e
        | Except.ok _ =>
          let scaleTag := if scale = "log" then "_log" else "_linear"
          Except.ok (save_plot ("get_" ++ scenario ++ "_bandwidth" ++ scaleTag ++ ".pdf") "get")

/-- `get.generate_bandwidth_plot`: load, skip on absent data, derive the
bandwidth metrics, draw the linear and the log variant. -/
def get_generate_bandwidth_plot (fs : FileSystem) (filename directory scenario : String) :
    Except String (List String) :=
  match read_data fs filename directory with
  | none => Except.ok []
  | some df =>
    match get_deriveBandwidth df with
    | Except.error e => Except.error e
    | Except.ok df1 =>
      match get_bandwidth_plot_with_scale df1 scenario "linear" with
      | Except.error e => Except.error e
      | Except.ok a =>
        match get_bandwidth_plot_with_scale df1 scenario "log" with
        | Except.error e => Except.error e
        | Except.ok b => Except.ok [a, b]

/-- `put.generate_latency_plot_with_scale` (same shape as get, put names). -/
def put_latency_plot_with_scale (df : Table) (scenario scale : String) :
    Except String String :=
  match df.getColCells "Msg Size (b)" with
  | Except.error e => Except.error e
  | Except.ok _ =>
    match df.getColCells "C (raw, us)" with
    | Except.error e => Except.error e
    | Except.ok _ =>
      match df.getColCells "RS (raw, us)" with
      | Except.error e => Except.error e
      | Except.ok _ =>
        match df.getColCells "Py (raw, us)" with
        | Except.error e => Except.error e
        | Except.ok _ =>
          let scaleTag := if scale = "log" then "_log" else "_linear"
          Except.ok (save_plot ("put_" ++ scenario ++ "_latency" ++ scaleTag ++ ".pdf") "put")

/-- `put.generate_latency_plot`. -/
def put_generate_latency_plot (fs : FileSystem) (filename directory scenario : String) :
    Except String (List String) :=
  match read_data fs filename directory with
  | none => Except.ok []
  | some df =>
    match put_latency_plot_with_scale df scenario "linear" with
    | Except.error e => Except.error e
    | Except.ok a =>
      match put_latency_plot_with_scale df scenario "log" with
      | Except.error e => Except.error e
      | Except.ok b => Except.ok [a, b]

/-- `put.generate_bandwidth_plot_with_scale`: put.py passes the selected
column names explicitly (`c_col`, `rs_col`, `py_col`). -/
def put_bandwidth_plot_with_scale (df : Table) (scenario scale cCol rsCol pyCol : String) :
    Except String String :=
  match df.getColCells "Msg Size (b)" with
  | Except.error e => Except.error e
  | Except.ok _ =>
    match df.getColCells cCol with
    | Except.error e => Except.error e
    | Except.ok _ =>
      match df.getColCells rsCol with
      | Except.error e => Except.error e
      | Except.ok _ =>
        match df.getColCells pyCol with
        | Except.error e => Except.error e
        | Except.ok _ =>
          let scaleTag := if scale = "log" then "_log" else "_linear"
          Except.ok (save_plot ("put_" ++ scenario ++ "_bandwidth" ++ scaleTag ++ ".pdf") "put")

/-- `put.generate_bandwidth_plot` (put.py 116-140): load, derive, choose
the column casing (lines 129-132), draw both scales. -/
def put_generate_bandwidth_plot (fs : FileSystem) (filename directory scenario : String) :
    Except String (List String) :=
  match read_data fs filename directory with
  | none => Except.ok []
  | some df =>
    match put_deriveBandwidth df with
    | Except.error e => Except.error e
    | Except.ok df1 =>
      let cCol := if df1.hasCol "C mibps" then "C mibps" else "C MiBPS"
      let rsCol := if df1.hasCol "RS mibps" then "RS mibps" else "RS MiBPS"
      let pyCol := if df1.hasCol "Py mibps" then "Py mibps" else "Py MiBPS"
      match put_bandwidth_plot_with_scale df1 scenario "linear" cCol rsCol pyCol with
      | Except.error e => Except.error e
      | Except.ok a =>
        match put_bandwidth_plot_with_scale df1 scenario "log" cCol rsCol pyCol with
        | Except.error e => Except.error e
        | Except.ok b => Except.ok [a, b]

/-! ### Sync generator -/

/-- One rendered bar: its height and its annotation text. -/
structure Bar where
  height : ℚ
  label : String
deriving DecidableEq

/-- The observable content of one sync chart: the three groups of bars and
the saved file. -/
structure SyncChart where
  cBars : List Bar
  rsBars : List Bar
  pyBars : List Bar
  outFile : String
deriving DecidableEq

/-- Python `f"{val:.2f}"` on an exact value: round to hundredths and print
two decimal digits.  (Python rounds the underlying binary double half to
even; the embedding rounds the exact rational, which agrees on every value
that is not a tie at the third decimal.) -/
def format2 (q : ℚ) : String :=
  let n : Int := round (q * 100)
  let whole : Int := n / 100
  let frac : Nat := (n % 100).toNat
  toString whole ++ "." ++ (if frac < 10 then "0" else "") ++ toString frac

/-- `sync.generate_sync_plot_log_scale` (sync.py 43-130) restricted to its
data content: C bars fixed at height 100 (labelled `"100.00%"` by
`add_percentage_labels_log`), RS/Py bars at `normalized * 100` with the
percentage printed to two decimals, one file saved. -/
def generate_sync_plot_log_scale (df : Table) (scenario : String) :
    Except String SyncChart :=
  match df.getColCells "Routine" with
  | Except.error e => Except.error e
  | Except.ok routines =>
    match df.getNumCol "RS (normalized)" with
    | Except.error e => Except.error e
    | Except.ok rsNorm =>
      match df.getNumCol "Py (normalized)" with
      | Except.error e => Except.error e
      | Except.ok pyNorm =>
        Except.ok
          ⟨routines.map (fun _ => ⟨100, "100.00%"⟩),
           rsNorm.map (fun v => ⟨v * 100, format2 (v * 100) ++ "%"⟩),
           pyNorm.map (fun v => ⟨v * 100, format2 (v * 100) ++ "%"⟩),
           save_plot ("sync_" ++ scenario ++ ".pdf") "sync"⟩

/-- `sync.generate_sync_plot`: load, skip on absent data, else draw the
log-scale chart. -/
def generate_sync_plot (fs : FileSystem) (filename directory scenario : String) :
    Except String (List String) :=
  match read_data fs filename directory with
  | none => Except.ok []
  | some df =>
    match generate_sync_plot_log_scale df scenario with
    | Except.error e => Except.error e
    | Except.ok chart => Except.ok [chart.outFile]

/-! ### Driver (`main.py`)

A generator run is summarised as the list of files it wrote plus the
unhandled exception (if any) that escaped it.  Sequencing two runs models
straight-line Python: if the first raises, the second never executes. -/

/-- Files written before an exception survive; an escaped exception is
carried in the second component. -/
def runGen : Except String (List String) → List String × Option String
  | Except.ok fsW => (fsW, none)
  | Except.error e => ([], some e)

/-- Sequential composition of two generator runs: the second runs only if
the first did not raise. -/
def seqGen (a b : List String × Option String) : List String × Option String :=
  match a.2 with
  | some e => (a.1, some e)
  | none => (a.1 ++ b.1, b.2)

/-- `get.generate_plots`: latency and bandwidth, intranode then internode. -/
def get_generate_plots (fs : FileSystem) : List String × Option String :=
  seqGen (runGen (get_generate_latency_plot fs "bw_shmem_get.csv" "intranode" "local"))
    (seqGen (runGen (get_generate_bandwidth_plot fs "bw_shmem_get.csv" "intranode" "local"))
      (seqGen (runGen (get_generate_latency_plot fs "bw_shmem_get.csv" "internode" "net"))
        (runGen (get_generate_bandwidth_plot fs "bw_shmem_get.csv" "internode" "net"))))

/-- `put.generate_plots`. -/
def put_generate_plots (fs : FileSystem) : List String × Option String :=
  seqGen (runGen (put_generate_latency_plot fs "bw_shmem_put.csv" "intranode" "local"))
    (seqGen (runGen (put_generate_bandwidth_plot fs "bw_shmem_put.csv" "intranode" "local"))
      (seqGen (runGen (put_generate_latency_plot fs "bw_shmem_put.csv" "internode" "net"))
        (runGen (put_generate_bandwidth_plot fs "bw_shmem_put.csv" "internode" "net"))))

/-- `sync.generate_plots`. -/
def sync_generate_plots (fs : FileSystem) : List String × Option String :=
  seqGen (runGen (generate_sync_plot fs "latency.csv" "intranode" "local"))
    (runGen (generate_sync_plot fs "latency.csv" "internode" "net"))

/-- `main.main` after the directory reset and style setup: the three
category generators called in sequence with no exception handling between
them (main.py 45-47). -/
def main_run (fs : FileSystem) : List String × Option String :=
  seqGen (get_generate_plots fs) (seqGen (put_generate_plots fs) (sync_generate_plots fs))

/-! ### Concrete fixtures used by the verification theorems -/

/-- The section-8 end-to-end row: size 1024 bytes, latencies 2.0, 2.5 and
3.0 microseconds, no precomputed bandwidth columns. -/
def dfScenario : Table :=
  ⟨[("Msg Size (b)", numCol [1024]), ("C (raw, us)", numCol [2]),
    ("RS (raw, us)", numCol [2.5]), ("Py (raw, us)", numCol [3])]⟩

/-- `dfScenario` after bandwidth derivation. -/
def dfScenarioDerived : Table :=
  ⟨[("Msg Size (b)", numCol [1024]), ("C (raw, us)", numCol [2]),
    ("RS (raw, us)", numCol [2.5]), ("Py (raw, us)", numCol [3]),
    ("C MiBPS", numCol [488.28125]), ("RS MiBPS", numCol [390.625]),
    ("Py MiBPS", numCol [15625/48])]⟩

/-- A table whose bandwidth columns are present only under the alternate
casing (`C mibps`, `RS mibps`, `Py mibps`). -/
def dfAltCasing : Table :=
  ⟨[("Msg Size (b)", numCol [1024]), ("C (raw, us)", numCol [2]),
    ("RS (raw, us)", numCol [4]), ("Py (raw, us)", numCol [8]),
    ("C mibps", numCol [100]), ("RS mibps", numCol [100]), ("Py mibps", numCol [100])]⟩

/-- A table with a pre-existing `RS MiBPS` column but no `C MiBPS`. -/
def dfPreRS : Table :=
  ⟨[("Msg Size (b)", numCol [1024]), ("C (raw, us)", numCol [2]),
    ("RS (raw, us)", numCol [4]), ("Py (raw, us)", numCol [8]),
    ("RS MiBPS", numCol [999])]⟩

/-- `dfPreRS` after the get deriver ran: `RS MiBPS` overwritten in place,
`C MiBPS` and `Py MiBPS` appended. -/
def dfPreRSDerived : Table :=
  ⟨[("Msg Size (b)", numCol [1024]), ("C (raw, us)", numCol [2]),
    ("RS (raw, us)", numCol [4]), ("Py (raw, us)", numCol [8]),
    ("RS MiBPS", numCol [244.140625]), ("C MiBPS", numCol [488.28125]),
    ("Py MiBPS", numCol [122.0703125])]⟩

/-- A sync table with one routine and normalized ratios 1.35 and 0.80. -/
def dfSyncRow : Table :=
  ⟨[("Routine", [Cell.str "shmem_barrier_all"]),
    ("RS (normalized)", numCol [1.35]), ("Py (normalized)", numCol [0.80])]⟩

/-- The chart rendered from `dfSyncRow` for the local scenario. -/
def syncChartRow : SyncChart :=
  ⟨[⟨100, "100.00%"⟩], [⟨135, "135.00%"⟩], [⟨80, "80.00%"⟩],
   "figures/sync/sync_local.pdf"⟩

/-- A parsed CSV that lacks the expected `Msg Size (b)` column. -/
def dfNoSize : Table := ⟨[("foo", numCol [1])]⟩

/-- A file system where the intranode get CSV parses but lacks the
message-size column, the intranode put CSV is well-formed, and every other
path is missing. -/
def fsMixed : FileSystem := fun p =>
  if p = "data/intranode/bw_shmem_get.csv" then some dfNoSize
  else if p = "data/intranode/bw_shmem_put.csv" then some dfScenario
  else none

/-- A file system carrying only the intranode get CSV. -/
def fsGetOnly : FileSystem := fun p =>
  if p = "data/intranode/bw_shmem_get.csv" then some dfScenario else none

/-- A file system where only the intranode put CSV exists, and that CSV
lacks the message-size column (get loads nothing, put raises). -/
def fsPutBad : FileSystem := fun p =>
  if p = "data/intranode/bw_shmem_put.csv" then some dfNoSize else none

/-! ### Lemmas about column lookup and assignment -/

theorem lookupCol_append_of_some {l₁ l₂ : List (String × List Cell)} {n : String}
    {v : List Cell} (h : lookupCol l₁ n = some v) : lookupCol (l₁ ++ l₂) n = some v := by
  induction l₁ with
  | nil => exact absurd h (by simp [lookupCol])
  | cons p rest ih =>
      by_cases hp : p.1 = n
      · rw [lookupCol, if_pos hp] at h
        rw [List.cons_append, lookupCol, if_pos hp]
        exact h
      · rw [lookupCol, if_neg hp] at h
        rw [List.cons_append, lookupCol, if_neg hp]
        exact ih h

theorem lookupCol_append_of_none {l₁ l₂ : List (String × List Cell)} {n : String}
    (h : lookupCol l₁ n = none) : lookupCol (l₁ ++ l₂) n = lookupCol l₂ n := by
  induction l₁ with
  | nil => simp
  | cons p rest ih =>
      by_cases hp : p.1 = n
      · rw [lookupCol, if_pos hp] at h
        exact absurd h (by simp)
      · rw [lookupCol, if_neg hp] at h
        rw [List.cons_append, lookupCol, if_neg hp]
        exact ih h

theorem lookupCol_replace_self {l : List (String × List Cell)} {n : String}
    (vals : List Cell) (h : (lookupCol l n).isSome) :
    lookupCol (l.map (fun p => if p.1 = n then (n, vals) else p)) n = some vals := by
  induction l with
  | nil => exact absurd h (by simp [lookupCol])
  | cons p rest ih =>
      by_cases hp : p.1 = n
      · rw [List.map_cons, if_pos hp, lookupCol]
        simp
      · rw [lookupCol, if_neg hp] at h
        rw [List.map_cons, if_neg hp, lookupCol, if_neg hp]
        exact ih h

theorem lookupCol_replace_ne {l : List (String × List Cell)} {n m : String}
    (vals : List Cell) (hne : m ≠ n) :
    lookupCol (l.map (fun p => if p.1 = n then (n, vals) else p)) m = lookupCol l m := by
  induction l with
  | nil => simp [lookupCol]
  | cons p rest ih =>
      by_cases hp : p.1 = n
      · have hpm : p.1 ≠ m := by rw [hp]; exact fun hh => hne hh.symm
        have hnm : ¬ ((n, vals).1 = m) := fun hh => hne hh.symm
        rw [List.map_cons, if_pos hp, lookupCol, if_neg hnm, lookupCol, if_neg hpm]
        exact ih
      · rw [List.map_cons, if_neg hp, lookupCol, lookupCol]
        by_cases hpm : p.1 = m
        · rw [if_pos hpm, if_pos hpm]
        · rw [if_neg hpm, if_neg hpm]
          exact ih

/-- Assigning a column makes it readable back (pandas `df[n] = v; df[n]`). -/
theorem lookup_setCol_self (t : Table) (n : String) (vals : List Cell) :
    lookupCol (t.setCol n vals).cols n = some vals := by
  rw [Table.setCol]
  by_cases h : t.hasCol n
  · rw [if_pos h]
    exact lookupCol_replace_self vals (by simpa [Table.hasCol] using h)
  · rw [if_neg h]
    have hnone : lookupCol t.cols n = none := by
      have h2 := h
      simp only [Table.hasCol, Option.isSome_iff_exists] at h2
      cases hl : lookupCol t.cols n with
      | none => rfl
      | some v => exact absurd ⟨v, hl⟩ h2
    show lookupCol (t.cols ++ [(n, vals)]) n = some vals
    rw [lookupCol_append_of_none hnone]
    simp [lookupCol]

/-- Assigning one column leaves every other column untouched. -/
theorem lookup_setCol_ne (t : Table) {n m : String} (vals : List Cell) (hne : m ≠ n) :
    lookupCol (t.setCol n vals).cols m = lookupCol t.cols m := by
  rw [Table.setCol]
  by_cases h : t.hasCol n
  · rw [if_pos h]
    exact lookupCol_replace_ne vals hne
  · rw [if_neg h]
    show lookupCol (t.cols ++ [(n, vals)]) m = lookupCol t.cols m
    cases hl : lookupCol t.cols m with
    | some v => exact lookupCol_append_of_some hl
    | none =>
        rw [lookupCol_append_of_none hl]
        simp only [lookupCol, if_neg (fun hh : (n, vals).1 = m => hne hh.symm)]

theorem hasCol_setCol_self (t : Table) (n : String) (vals : List Cell) :
    (t.setCol n vals).hasCol n = true := by
  simp [Table.hasCol, lookup_setCol_self]

theorem hasCol_setCol_ne (t : Table) {n m : String} (vals : List Cell) (hne : m ≠ n) :
    (t.setCol n vals).hasCol m = t.hasCol m := by
  simp [Table.hasCol, lookup_setCol_ne t vals hne]

theorem getColCells_setCol_self (t : Table) (n : String) (vals : List Cell) :
    (t.setCol n vals).getColCells n = Except.ok vals := by
  simp [Table.getColCells, lookup_setCol_self]

theorem getColCells_setCol_ne (t : Table) {n m : String} (vals : List Cell) (hne : m ≠ n) :
    (t.setCol n vals).getColCells m = t.getColCells m := by
  simp [Table.getColCells, lookup_setCol_ne t vals hne]

theorem cellsToNums_numCol (qs : List ℚ) : cellsToNums (numCol qs) = some qs := by
  induction qs with
  | nil => simp [cellsToNums, numCol]
  | cons q rest ih => simp [cellsToNums, numCol, Cell.asNum] at ih ⊢; simp [ih]

theorem getNumCol_setCol_self (t : Table) (n : String) (qs : List ℚ) :
    (t.setCol n (numCol qs)).getNumCol n = Except.ok qs := by
  simp [Table.getNumCol, getColCells_setCol_self, cellsToNums_numCol]

theorem getNumCol_setCol_ne (t : Table) {n m : String} (vals : List Cell) (hne : m ≠ n) :
    (t.setCol n vals).getNumCol m = t.getNumCol m := by
  simp [Table.getNumCol, getColCells_setCol_ne t vals hne]

/-- Unfolding of the shared recomputation body when the four input columns
are present and numeric: the three bandwidth columns are assigned in order. -/
theorem computeBandwidthColumns_spec {df : Table} {sizes cs rss pys : List ℚ}
    (hs : df.getNumCol "Msg Size (b)" = Except.ok sizes)
    (hc : df.getNumCol "C (raw, us)" = Except.ok cs)
    (hrs : df.getNumCol "RS (raw, us)" = Except.ok rss)
    (hpy : df.getNumCol "Py (raw, us)" = Except.ok pys) :
    computeBandwidthColumns df = Except.ok
      (((df.setCol "C MiBPS" (numCol (List.zipWith bwFormula sizes cs))).setCol
          "RS MiBPS" (numCol (List.zipWith bwFormula sizes rss))).setCol
        "Py MiBPS" (numCol (List.zipWith bwFormula sizes pys))) := by
  have h1 : bwSeries df "C (raw, us)" = Except.ok (List.zipWith bwFormula sizes cs) := by
    simp [bwSeries, hs, hc]
  have hs1 : (df.setCol "C MiBPS" (numCol (List.zipWith bwFormula sizes cs))).getNumCol
      "Msg Size (b)" = Except.ok sizes := by
    rw [getNumCol_setCol_ne _ _ (by decide)]; exact hs
  have hrs1 : (df.setCol "C MiBPS" (numCol (List.zipWith bwFormula sizes cs))).getNumCol
      "RS (raw, us)" = Except.ok rss := by
    rw [getNumCol_setCol_ne _ _ (by decide)]; exact hrs
  have h2 : bwSeries (df.setCol "C MiBPS" (numCol (List.zipWith bwFormula sizes cs)))
      "RS (raw, us)" = Except.ok (List.zipWith bwFormula sizes rss) := by
    simp [bwSeries, hs1, hrs1]
  have hs2 : ((df.setCol "C MiBPS" (numCol (List.zipWith bwFormula sizes cs))).setCol
      "RS MiBPS" (numCol (List.zipWith bwFormula sizes rss))).getNumCol
      "Msg Size (b)" = Except.ok sizes := by
    rw [getNumCol_setCol_ne _ _ (by decide)]; exact hs1
  have hpy2 : ((df.setCol "C MiBPS" (numCol (List.zipWith bwFormula sizes cs))).setCol
      "RS MiBPS" (numCol (List.zipWith bwFormula sizes rss))).getNumCol
      "Py (raw, us)" = Except.ok pys := by
    rw [getNumCol_setCol_ne _ _ (by decide), getNumCol_setCol_ne _ _ (by decide)]; exact hpy
  have h3 : bwSeries ((df.setCol "C MiBPS" (numCol (List.zipWith bwFormula sizes cs))).setCol
      "RS MiBPS" (numCol (List.zipWith bwFormula sizes rss))) "Py (raw, us)" =
      Except.ok (List.zipWith bwFormula sizes pys) := by
    simp [bwSeries, hs2, hpy2]
  simp [computeBandwidthColumns, h1, h2, h3]


theorem hasCol_setCol_mono (t : Table) {m : String} (n : String) (vals : List Cell)
    (h : t.hasCol m = true) : (t.setCol n vals).hasCol m = true := by
  by_cases hmn : m = n
  · rw [hmn]; exact hasCol_setCol_self t n vals
  · rw [hasCol_setCol_ne t vals hmn]; exact h

theorem getD_zipWith (f : ℚ → ℚ → ℚ) (as bs : List ℚ) (i : ℕ) (d : ℚ)
    (ha : i < as.length) (hb : i < bs.length) :
    (List.zipWith f as bs).getD i d = f (as.getD i d) (bs.getD i d) := by
  induction as generalizing bs i with
  | nil => simp at ha
  | cons a rest ih =>
      cases bs with
      | nil => simp at hb
      | cons b bs =>
          cases i with
          | zero => simp
          | succ j =>
              simp only [List.zipWith_cons_cons, List.getD_cons_succ]
              exact ih bs j (by simpa using ha) (by simpa using hb)

/-- After a successful recomputation the three bandwidth columns exist. -/
theorem computeBandwidthColumns_ok {df d : Table}
    (h : computeBandwidthColumns df = Except.ok d) :
    d.hasCol "C MiBPS" = true ∧ d.hasCol "RS MiBPS" = true ∧ d.hasCol "Py MiBPS" = true := by
  simp only [computeBandwidthColumns] at h
  split at h
  · cases h
  · split at h
    · cases h
    · split at h
      · cases h
      · cases h
        refine ⟨?_, ?_, ?_⟩
        · rw [hasCol_setCol_ne _ _ (show ("C MiBPS" : String) ≠ "Py MiBPS" by decide),
            hasCol_setCol_ne _ _ (show ("C MiBPS" : String) ≠ "RS MiBPS" by decide)]
          exact hasCol_setCol_self _ _ _
        · rw [hasCol_setCol_ne _ _ (show ("RS MiBPS" : String) ≠ "Py MiBPS" by decide)]
          exact hasCol_setCol_self _ _ _
        · exact hasCol_setCol_self _ _ _

theorem get_deriveBandwidth_skip {df : Table} (h : df.hasCol "C MiBPS" = true) :
    get_deriveBandwidth df = Except.ok df := by
  simp [get_deriveBandwidth, h]

theorem get_deriveBandwidth_compute {df : Table} (h : df.hasCol "C MiBPS" = false) :
    get_deriveBandwidth df = computeBandwidthColumns df := by
  rw [get_deriveBandwidth, if_neg (by simp [h])]

theorem put_deriveBandwidth_skip {df : Table}
    (h : df.hasCol "C MiBPS" = true ∨ df.hasCol "C mibps" = true) :
    put_deriveBandwidth df = Except.ok df := by
  rcases h with h | h <;> simp [put_deriveBandwidth, h]

theorem put_deriveBandwidth_compute {df : Table} (h1 : df.hasCol "C MiBPS" = false)
    (h2 : df.hasCol "C mibps" = false) :
    put_deriveBandwidth df = computeBandwidthColumns df := by
  rw [put_deriveBandwidth, if_neg (by simp [h1, h2])]

/-! ### Concrete evaluations -/

theorem get_deriveBandwidth_dfScenario :
    get_deriveBandwidth dfScenario = Except.ok dfScenarioDerived := by
  simp [dfScenario, dfScenarioDerived, get_deriveBandwidth, computeBandwidthColumns, bwSeries,
    Table.getNumCol, Table.getColCells, Table.setCol, Table.hasCol, lookupCol, cellsToNums,
    Cell.asNum, numCol, bwFormula]
  norm_num

theorem put_deriveBandwidth_dfScenario :
    put_deriveBandwidth dfScenario = Except.ok dfScenarioDerived := by
  simp [dfScenario, dfScenarioDerived, put_deriveBandwidth, computeBandwidthColumns, bwSeries,
    Table.getNumCol, Table.getColCells, Table.setCol, Table.hasCol, lookupCol, cellsToNums,
    Cell.asNum, numCol, bwFormula]
  norm_num

theorem get_deriveBandwidth_dfPreRS :
    get_deriveBandwidth dfPreRS = Except.ok dfPreRSDerived := by
  simp [dfPreRS, dfPreRSDerived, get_deriveBandwidth, computeBandwidthColumns, bwSeries,
    Table.getNumCol, Table.getColCells, Table.setCol, Table.hasCol, lookupCol, cellsToNums,
    Cell.asNum, numCol, bwFormula]
  norm_num

theorem generate_sync_dfSyncRow :
    generate_sync_plot_log_scale dfSyncRow "local" = Except.ok syncChartRow := by
  simp [generate_sync_plot_log_scale, dfSyncRow, syncChartRow, Table.getColCells,
    Table.getNumCol, lookupCol, cellsToNums, Cell.asNum, numCol, save_plot]
  norm_num [format2, round_eq]
  all_goals decide

/-- A successful recomputation is exactly the three column assignments. -/
theorem computeBandwidthColumns_shape {df d : Table}
    (h : computeBandwidthColumns df = Except.ok d) :
    ∃ c rs py : List ℚ, d = ((df.setCol "C MiBPS" (numCol c)).setCol "RS MiBPS"
      (numCol rs)).setCol "Py MiBPS" (numCol py) := by
  simp only [computeBandwidthColumns] at h
  split at h
  · cases h
  · split at h
    · cases h
    · split at h
      · cases h
      · cases h
        exact ⟨_, _, _, rfl⟩

/-! ### Claims -/

/-- C1: for every table row with latency > 0, when the precomputed
bandwidth columns are absent, the metric deriver (of get.py, and of put.py)
sets each of the three derived bandwidth values (C, RS, Py) to
`message_size_bytes / latency_us * 0.95367431640625`. -/
theorem C1_bandwidth_formula (df d : Table) (sizes cs rss pys : List ℚ)
    (hs : df.getNumCol "Msg Size (b)" = Except.ok sizes)
    (hc : df.getNumCol "C (raw, us)" = Except.ok cs)
    (hrs : df.getNumCol "RS (raw, us)" = Except.ok rss)
    (hpy : df.getNumCol "Py (raw, us)" = Except.ok pys)
    (hlc : cs.length = sizes.length) (hlr : rss.length = sizes.length)
    (hlp : pys.length = sizes.length)
    (hrun : get_deriveBandwidth df = Except.ok d ∧ df.hasCol "C MiBPS" = false ∨
      put_deriveBandwidth df = Except.ok d ∧ df.hasCol "C MiBPS" = false ∧
        df.hasCol "C mibps" = false) :
    d.getNumCol "C MiBPS" = Except.ok (List.zipWith bwFormula sizes cs) ∧
    d.getNumCol "RS MiBPS" = Except.ok (List.zipWith bwFormula sizes rss) ∧
    d.getNumCol "Py MiBPS" = Except.ok (List.zipWith bwFormula sizes pys) ∧
    ∀ i : ℕ, i < sizes.length →
      (0 < cs.getD i 0 → (List.zipWith bwFormula sizes cs).getD i 0 =
        sizes.getD i 0 / cs.getD i 0 * 0.95367431640625) ∧
      (0 < rss.getD i 0 → (List.zipWith bwFormula sizes rss).getD i 0 =
        sizes.getD i 0 / rss.getD i 0 * 0.95367431640625) ∧
      (0 < pys.getD i 0 → (List.zipWith bwFormula sizes pys).getD i 0 =
        sizes.getD i 0 / pys.getD i 0 * 0.95367431640625) := by
  have hcompute : computeBandwidthColumns df = Except.ok d := by
    rcases hrun with ⟨hr, hC⟩ | ⟨hr, hC, hc2⟩
    · rw [← get_deriveBandwidth_compute hC]; exact hr
    · rw [← put_deriveBandwidth_compute hC hc2]; exact hr
  rw [computeBandwidthColumns_spec hs hc hrs hpy] at hcompute
  injection hcompute with hd
  subst hd
  refine ⟨?_, ?_, ?_, ?_⟩
  · rw [getNumCol_setCol_ne _ _ (show ("C MiBPS" : String) ≠ "Py MiBPS" by decide),
      getNumCol_setCol_ne _ _ (show ("C MiBPS" : String) ≠ "RS MiBPS" by decide)]
    exact getNumCol_setCol_self _ _ _
  · rw [getNumCol_setCol_ne _ _ (show ("RS MiBPS" : String) ≠ "Py MiBPS" by decide)]
    exact getNumCol_setCol_self _ _ _
  · exact getNumCol_setCol_self _ _ _
  · intro i hi
    refine ⟨fun _ => ?_, fun _ => ?_, fun _ => ?_⟩
    · rw [getD_zipWith bwFormula sizes cs i 0 hi (by omega)]; exact rfl
    · rw [getD_zipWith bwFormula sizes rss i 0 hi (by omega)]; exact rfl
    · rw [getD_zipWith bwFormula sizes pys i 0 hi (by omega)]; exact rfl

/-- C1 witness: the theorem applied to the concrete section-8 row table. -/
theorem C1_bandwidth_formula_witness :
    dfScenarioDerived.getNumCol "C MiBPS" =
      Except.ok (List.zipWith bwFormula [1024] [2]) ∧
    (List.zipWith bwFormula [1024] [2]).getD 0 0 = 1024 / 2 * 0.95367431640625 := by
  have h := C1_bandwidth_formula dfScenario dfScenarioDerived [1024] [2] [2.5] [3]
    rfl rfl rfl rfl rfl rfl rfl
    (Or.inl ⟨get_deriveBandwidth_dfScenario, by decide⟩)
  exact ⟨h.1, (h.2.2.2 0 (by decide)).1 (by decide)⟩

/-- C2 counterexample: `dfAltCasing` carries the three bandwidth columns in
the alternate casing, yet get.py's deriver still recomputes (it checks only
`"C MiBPS"`), so the claim "each bandwidth generator (get and put) detects
them and does not recompute" is false for get. -/
theorem C2_alt_casing_counterexample :
    dfAltCasing.hasCol "C mibps" = true ∧
    dfAltCasing.hasCol "RS mibps" = true ∧
    dfAltCasing.hasCol "Py mibps" = true ∧
    get_deriveBandwidth dfAltCasing ≠ Except.ok dfAltCasing := by
  refine ⟨by decide, by decide, by decide, fun hcontra => ?_⟩
  have hC : dfAltCasing.hasCol "C MiBPS" = false := by decide
  rw [get_deriveBandwidth_compute hC] at hcontra
  have h3 := computeBandwidthColumns_ok hcontra
  rw [hC] at h3
  exact absurd h3.1 (by simp)

/-- C2 amended: put.py's deriver detects both recognized casings and skips
recomputation; get.py's deriver detects only the primary casing `C MiBPS`
and recomputes whenever that column is absent, even if the alternate-casing
columns are present. -/
theorem C2_casing_detection_amended :
    (∀ df : Table, df.hasCol "C MiBPS" = true → get_deriveBandwidth df = Except.ok df) ∧
    (∀ df : Table, df.hasCol "C MiBPS" = true ∨ df.hasCol "C mibps" = true →
      put_deriveBandwidth df = Except.ok df) ∧
    (∀ df : Table, df.hasCol "C MiBPS" = false →
      get_deriveBandwidth df = computeBandwidthColumns df) :=
  ⟨fun _ h => get_deriveBandwidth_skip h,
   fun _ h => put_deriveBandwidth_skip h,
   fun _ h => get_deriveBandwidth_compute h⟩

/-- C2 witness: the amended statement at concrete tables. -/
theorem C2_casing_detection_witness :
    get_deriveBandwidth ⟨[("C MiBPS", numCol [1])]⟩ =
      Except.ok ⟨[("C MiBPS", numCol [1])]⟩ ∧
    put_deriveBandwidth ⟨[("C mibps", numCol [1])]⟩ =
      Except.ok ⟨[("C mibps", numCol [1])]⟩ ∧
    get_deriveBandwidth dfAltCasing = computeBandwidthColumns dfAltCasing :=
  ⟨C2_casing_detection_amended.1 _ (by decide),
   C2_casing_detection_amended.2.1 _ (Or.inr (by decide)),
   C2_casing_detection_amended.2.2 _ (by decide)⟩

/-- C3: applying the metric deriver twice to the same table yields the same
table (and so the same bandwidth columns) as applying it once; the second
application skips recomputation. -/
theorem C3_deriver_idempotent :
    (∀ df d : Table, get_deriveBandwidth df = Except.ok d →
      get_deriveBandwidth d = Except.ok d) ∧
    (∀ df d : Table, put_deriveBandwidth df = Except.ok d →
      put_deriveBandwidth d = Except.ok d) := by
  constructor
  · intro df d h
    by_cases hC : df.hasCol "C MiBPS" = true
    · rw [get_deriveBandwidth_skip hC] at h
      injection h with h
      subst h
      exact get_deriveBandwidth_skip hC
    · have hC2 : df.hasCol "C MiBPS" = false := by simpa using hC
      rw [get_deriveBandwidth_compute hC2] at h
      exact get_deriveBandwidth_skip (computeBandwidthColumns_ok h).1
  · intro df d h
    by_cases hC : df.hasCol "C MiBPS" = true ∨ df.hasCol "C mibps" = true
    · rw [put_deriveBandwidth_skip hC] at h
      injection h with h
      subst h
      exact put_deriveBandwidth_skip hC
    · push_neg at hC
      have h1 : df.hasCol "C MiBPS" = false := by simpa using hC.1
      have h2 : df.hasCol "C mibps" = false := by simpa using hC.2
      rw [put_deriveBandwidth_compute h1 h2] at h
      exact put_deriveBandwidth_skip (Or.inl (computeBandwidthColumns_ok h).1)

/-- C3 witness: the deriver applied a second time to the concrete derived
table leaves it untouched. -/
theorem C3_deriver_idempotent_witness :
    get_deriveBandwidth dfScenarioDerived = Except.ok dfScenarioDerived ∧
    put_deriveBandwidth dfScenarioDerived = Except.ok dfScenarioDerived :=
  ⟨C3_deriver_idempotent.1 dfScenario dfScenarioDerived get_deriveBandwidth_dfScenario,
   C3_deriver_idempotent.2 dfScenario dfScenarioDerived put_deriveBandwidth_dfScenario⟩

/-- C10: the skip decision depends only on the presence of the C bandwidth
column; a table with the C column (in a casing the deriver recognizes) but
without the RS/Py bandwidth columns is left unchanged, nothing is derived. -/
theorem C10_skip_depends_only_on_C (df : Table)
    (hRS : df.hasCol "RS MiBPS" = false) (hPy : df.hasCol "Py MiBPS" = false)
    (hRS2 : df.hasCol "RS mibps" = false) (hPy2 : df.hasCol "Py mibps" = false) :
    (df.hasCol "C MiBPS" = true → get_deriveBandwidth df = Except.ok df) ∧
    (df.hasCol "C MiBPS" = true ∨ df.hasCol "C mibps" = true →
      put_deriveBandwidth df = Except.ok df) :=
  ⟨fun h => get_deriveBandwidth_skip h, fun h => put_deriveBandwidth_skip h⟩

/-- C10 witness: a table holding only a `C MiBPS` column is left unchanged
by both derivers. -/
theorem C10_skip_depends_only_on_C_witness :
    get_deriveBandwidth ⟨[("C MiBPS", numCol [7])]⟩ =
      Except.ok ⟨[("C MiBPS", numCol [7])]⟩ ∧
    put_deriveBandwidth ⟨[("C MiBPS", numCol [7])]⟩ =
      Except.ok ⟨[("C MiBPS", numCol [7])]⟩ :=
  ⟨(C10_skip_depends_only_on_C ⟨[("C MiBPS", numCol [7])]⟩
      (by decide) (by decide) (by decide) (by decide)).1 (by decide),
   (C10_skip_depends_only_on_C ⟨[("C MiBPS", numCol [7])]⟩
      (by decide) (by decide) (by decide) (by decide)).2 (Or.inl (by decide))⟩

/-- C4 counterexample: on the section-8 row the derived bandwidths are
488.28125, 390.625 and 15625/48 = 325.5208..., which do not begin with
488.12, 390.49 and 325.41 as the claim states. -/
theorem C4_decimals_counterexample :
    get_deriveBandwidth dfScenario = Except.ok dfScenarioDerived ∧
    dfScenarioDerived.getNumCol "C MiBPS" = Except.ok [(488.28125 : ℚ)] ∧
    dfScenarioDerived.getNumCol "RS MiBPS" = Except.ok [(390.625 : ℚ)] ∧
    dfScenarioDerived.getNumCol "Py MiBPS" = Except.ok [(15625/48 : ℚ)] ∧
    ¬ ((488.12 : ℚ) ≤ 488.28125 ∧ (488.28125 : ℚ) < 488.13) ∧
    ¬ ((390.49 : ℚ) ≤ 390.625 ∧ (390.625 : ℚ) < 390.50) ∧
    ¬ ((325.41 : ℚ) ≤ 15625/48 ∧ (15625/48 : ℚ) < 325.42) := by
  refine ⟨get_deriveBandwidth_dfScenario, rfl, rfl, rfl, ?_, ?_, ?_⟩
  · intro h; exact absurd h.2 (by norm_num)
  · intro h; exact absurd h.2 (by norm_num)
  · intro h; exact absurd h.2 (by norm_num)

/-- C4 amended: on the row (size 1024, latencies 2.0, 2.5, 3.0 us) with no
precomputed bandwidth columns, the derived bandwidths are
1024/2.0 x 0.95367431640625 = 488.28125,
1024/2.5 x 0.95367431640625 = 390.625 and
1024/3.0 x 0.95367431640625 = 325.5208... MiB/s. -/
theorem C4_scenario_values_amended :
    get_deriveBandwidth dfScenario = Except.ok dfScenarioDerived ∧
    dfScenarioDerived.getNumCol "C MiBPS" =
      Except.ok [(1024 : ℚ) / 2 * 0.95367431640625] ∧
    dfScenarioDerived.getNumCol "RS MiBPS" =
      Except.ok [(1024 : ℚ) / 2.5 * 0.95367431640625] ∧
    dfScenarioDerived.getNumCol "Py MiBPS" =
      Except.ok [(1024 : ℚ) / 3 * 0.95367431640625] ∧
    (1024 : ℚ) / 2 * 0.95367431640625 = 488.28125 ∧
    (1024 : ℚ) / 2.5 * 0.95367431640625 = 390.625 ∧
    (325.52 : ℚ) ≤ 1024 / 3 * 0.95367431640625 ∧
    (1024 : ℚ) / 3 * 0.95367431640625 < 325.53 := by
  refine ⟨get_deriveBandwidth_dfScenario, ?_, ?_, ?_, by norm_num, by norm_num,
    by norm_num, by norm_num⟩
  · simp [dfScenarioDerived, Table.getNumCol, Table.getColCells, lookupCol, cellsToNums,
      Cell.asNum, numCol]
    norm_num
  · simp [dfScenarioDerived, Table.getNumCol, Table.getColCells, lookupCol, cellsToNums,
      Cell.asNum, numCol]
    norm_num
  · simp [dfScenarioDerived, Table.getNumCol, Table.getColCells, lookupCol, cellsToNums,
      Cell.asNum, numCol]
    norm_num

/-- C9 counterexample: `dfPreRS` has a pre-existing `RS MiBPS` column with
value 999; because `C MiBPS` is absent the deriver recomputes and the
assignment overwrites that pre-existing column with 244.140625, so not
every pre-existing column keeps its values. -/
theorem C9_overwrite_counterexample :
    dfPreRS.hasCol "C MiBPS" = false ∧
    dfPreRS.getNumCol "RS MiBPS" = Except.ok [(999 : ℚ)] ∧
    get_deriveBandwidth dfPreRS = Except.ok dfPreRSDerived ∧
    dfPreRSDerived.getNumCol "RS MiBPS" = Except.ok [(244.140625 : ℚ)] ∧
    (Except.ok [(244.140625 : ℚ)] : Except String (List ℚ)) ≠ Except.ok [(999 : ℚ)] := by
  refine ⟨by decide, rfl, get_deriveBandwidth_dfPreRS, rfl, ?_⟩
  intro h
  injection h with h
  simp only [List.cons.injEq, and_true] at h
  exact absurd h (by norm_num)

/-- C9 amended: when the deriver recomputes, only the three target columns
`C MiBPS`, `RS MiBPS`, `Py MiBPS` are written (added, or overwritten when
the RS/Py target pre-exists while the C column is absent); every other
pre-existing column keeps its cells — and with them the row order — no
column is removed, and the three target columns exist afterwards. -/
theorem C9_frame_amended (df d : Table)
    (hrun : get_deriveBandwidth df = Except.ok d ∧ df.hasCol "C MiBPS" = false ∨
      put_deriveBandwidth df = Except.ok d ∧ df.hasCol "C MiBPS" = false ∧
        df.hasCol "C mibps" = false) :
    (∀ name : String, name ≠ "C MiBPS" → name ≠ "RS MiBPS" → name ≠ "Py MiBPS" →
      d.getColCells name = df.getColCells name) ∧
    (∀ name : String, df.hasCol name = true → d.hasCol name = true) ∧
    d.hasCol "C MiBPS" = true ∧ d.hasCol "RS MiBPS" = true ∧ d.hasCol "Py MiBPS" = true := by
  have hcompute : computeBandwidthColumns df = Except.ok d := by
    rcases hrun with ⟨hr, hC⟩ | ⟨hr, hC, hc2⟩
    · rw [← get_deriveBandwidth_compute hC]; exact hr
    · rw [← put_deriveBandwidth_compute hC hc2]; exact hr
  have hok := computeBandwidthColumns_ok hcompute
  obtain ⟨c, rs, py, rfl⟩ := computeBandwidthColumns_shape hcompute
  refine ⟨?_, ?_, hok⟩
  · intro name h1 h2 h3
    rw [getColCells_setCol_ne _ _ h3, getColCells_setCol_ne _ _ h2,
      getColCells_setCol_ne _ _ h1]
  · intro name h
    exact hasCol_setCol_mono _ _ _ (hasCol_setCol_mono _ _ _ (hasCol_setCol_mono _ _ _ h))

/-- C9 witness: on `dfPreRS` the non-target columns are preserved and the
pre-existing `RS MiBPS` column still exists after derivation. -/
theorem C9_frame_witness :
    dfPreRSDerived.getColCells "Msg Size (b)" = dfPreRS.getColCells "Msg Size (b)" ∧
    dfPreRSDerived.hasCol "RS MiBPS" = true := by
  have h := C9_frame_amended dfPreRS dfPreRSDerived
    (Or.inl ⟨get_deriveBandwidth_dfPreRS, by decide⟩)
  exact ⟨h.1 "Msg Size (b)" (by decide) (by decide) (by decide), h.2.1 "RS MiBPS" (by decide)⟩

/-- C5: for a nonexistent or unparsable CSV path the loader returns None
(it never raises — the exception is caught inside `read_data`), and every
chart generator invoked on that path writes zero output files and throws
nothing. -/
theorem C5_absent_file (fs : FileSystem) (filename directory scenario : String)
    (h : fs (dataPath directory filename) = none) :
    read_data fs filename directory = none ∧
    get_generate_latency_plot fs filename directory scenario = Except.ok [] ∧
    get_generate_bandwidth_plot fs filename directory scenario = Except.ok [] ∧
    put_generate_latency_plot fs filename directory scenario = Except.ok [] ∧
    put_generate_bandwidth_plot fs filename directory scenario = Except.ok [] ∧
    generate_sync_plot fs filename directory scenario = Except.ok [] := by
  have hr : read_data fs filename directory = none := h
  exact ⟨hr, by simp [get_generate_latency_plot, hr],
    by simp [get_generate_bandwidth_plot, hr],
    by simp [put_generate_latency_plot, hr],
    by simp [put_generate_bandwidth_plot, hr],
    by simp [generate_sync_plot, hr]⟩

/-- C5 witness: the empty file system. -/
theorem C5_absent_file_witness :
    read_data (fun _ => none) "bw_shmem_get.csv" "intranode" = none ∧
    get_generate_latency_plot (fun _ => none) "bw_shmem_get.csv" "intranode" "local" =
      Except.ok [] ∧
    generate_sync_plot (fun _ => none) "latency.csv" "internode" "net" = Except.ok [] := by
  have h1 := C5_absent_file (fun _ => none) "bw_shmem_get.csv" "intranode" "local" rfl
  have h2 := C5_absent_file (fun _ => none) "latency.csv" "internode" "net" rfl
  exact ⟨h1.1, h1.2.1, h2.2.2.2.2.2⟩

/-- C8: with a dataset that loads successfully (and has the four expected
columns), the get latency generator for the local scenario writes exactly
`figures/get/get_local_latency_linear.pdf` and
`figures/get/get_local_latency_log.pdf`, and nothing else. -/
theorem C8_get_latency_filenames (fs : FileSystem) (df : Table) (a b c d : List Cell)
    (hfs : fs (dataPath "intranode" "bw_shmem_get.csv") = some df)
    (ha : df.getColCells "Msg Size (b)" = Except.ok a)
    (hb : df.getColCells "C (raw, us)" = Except.ok b)
    (hc : df.getColCells "RS (raw, us)" = Except.ok c)
    (hd : df.getColCells "Py (raw, us)" = Except.ok d) :
    get_generate_latency_plot fs "bw_shmem_get.csv" "intranode" "local" =
      Except.ok ["figures/get/get_local_latency_linear.pdf",
        "figures/get/get_local_latency_log.pdf"] := by
  have hr : read_data fs "bw_shmem_get.csv" "intranode" = some df := hfs
  simp [get_generate_latency_plot, hr, get_latency_plot_with_scale, ha, hb, hc, hd, save_plot]

/-- C8 witness: the concrete file system `fsGetOnly`. -/
theorem C8_get_latency_filenames_witness :
    get_generate_latency_plot fsGetOnly "bw_shmem_get.csv" "intranode" "local" =
      Except.ok ["figures/get/get_local_latency_linear.pdf",
        "figures/get/get_local_latency_log.pdf"] :=
  C8_get_latency_filenames fsGetOnly dfScenario (numCol [1024]) (numCol [2])
    (numCol [2.5]) (numCol [3]) rfl rfl rfl rfl rfl

/-- C7: in the sync chart every routine row gets a reference bar of height
100 labelled "100.00%", and RS/Py bars of height ratio*100 labelled with
that percentage to two decimal places; ratios 1.35 and 0.80 render as
"135.00%" and "80.00%". -/
theorem C7_sync_bars (df : Table) (scenario : String) (routines : List Cell)
    (rsNorm pyNorm : List ℚ) (chart : SyncChart)
    (hrt : df.getColCells "Routine" = Except.ok routines)
    (hrs : df.getNumCol "RS (normalized)" = Except.ok rsNorm)
    (hpy : df.getNumCol "Py (normalized)" = Except.ok pyNorm)
    (hrun : generate_sync_plot_log_scale df scenario = Except.ok chart) :
    chart.cBars = routines.map (fun _ => (⟨100, "100.00%"⟩ : Bar)) ∧
    chart.rsBars = rsNorm.map (fun v => (⟨v * 100, format2 (v * 100) ++ "%"⟩ : Bar)) ∧
    chart.pyBars = pyNorm.map (fun v => (⟨v * 100, format2 (v * 100) ++ "%"⟩ : Bar)) ∧
    format2 ((1.35 : ℚ) * 100) ++ "%" = "135.00%" ∧
    format2 ((0.80 : ℚ) * 100) ++ "%" = "80.00%" := by
  simp only [generate_sync_plot_log_scale, hrt, hrs, hpy] at hrun
  injection hrun with hrun
  subst hrun
  refine ⟨rfl, rfl, rfl, ?_, ?_⟩
  · simp only [format2]
    norm_num [round_eq]
    decide
  · simp only [format2]
    norm_num [round_eq]
    decide

/-- C7 witness: the one-routine sync table with ratios 1.35 and 0.80. -/
theorem C7_sync_bars_witness :
    syncChartRow.cBars = [Cell.str "shmem_barrier_all"].map (fun _ => (⟨100, "100.00%"⟩ : Bar)) ∧
    syncChartRow.rsBars =
      [(1.35 : ℚ)].map (fun v => (⟨v * 100, format2 (v * 100) ++ "%"⟩ : Bar)) ∧
    format2 ((1.35 : ℚ) * 100) ++ "%" = "135.00%" ∧
    format2 ((0.80 : ℚ) * 100) ++ "%" = "80.00%" := by
  have h := C7_sync_bars dfSyncRow "local" [Cell.str "shmem_barrier_all"] [1.35] [0.80]
    syncChartRow rfl rfl rfl generate_sync_dfSyncRow
  exact ⟨h.1, h.2.1, h.2.2.2.1, h.2.2.2.2⟩

/-- On `fsMixed` the get category aborts at the missing `Msg Size (b)`
column of its parsed CSV, having written nothing. -/
theorem get_plots_fsMixed :
    get_generate_plots fsMixed = ([], some "Msg Size (b)") := by
  simp [get_generate_plots, get_generate_latency_plot, get_generate_bandwidth_plot,
    read_data, fsMixed, dataPath, dfNoSize, get_latency_plot_with_scale,
    get_deriveBandwidth, computeBandwidthColumns, bwSeries, Table.getNumCol,
    Table.getColCells, Table.hasCol, lookupCol, cellsToNums, Cell.asNum, numCol,
    seqGen, runGen]

/-- On `fsMixed` the put category alone runs to completion and writes its
four intranode files (the internode CSV is absent and skipped). -/
theorem put_plots_fsMixed :
    put_generate_plots fsMixed =
      (["figures/put/put_local_latency_linear.pdf",
        "figures/put/put_local_latency_log.pdf",
        "figures/put/put_local_bandwidth_linear.pdf",
        "figures/put/put_local_bandwidth_log.pdf"], none) := by
  have hr : read_data fsMixed "bw_shmem_put.csv" "intranode" = some dfScenario := by
    simp [read_data, fsMixed, dataPath]
  have h1 : put_generate_latency_plot fsMixed "bw_shmem_put.csv" "intranode" "local" =
      Except.ok ["figures/put/put_local_latency_linear.pdf",
        "figures/put/put_local_latency_log.pdf"] := by
    simp [put_generate_latency_plot, hr, put_latency_plot_with_scale, dfScenario,
      Table.getColCells, lookupCol, numCol, save_plot]
  have h2 : put_generate_bandwidth_plot fsMixed "bw_shmem_put.csv" "intranode" "local" =
      Except.ok ["figures/put/put_local_bandwidth_linear.pdf",
        "figures/put/put_local_bandwidth_log.pdf"] := by
    simp [put_generate_bandwidth_plot, hr, put_deriveBandwidth_dfScenario,
      put_bandwidth_plot_with_scale, dfScenarioDerived, Table.getColCells, Table.hasCol,
      lookupCol, numCol, save_plot]
  have h3 : put_generate_latency_plot fsMixed "bw_shmem_put.csv" "internode" "net" =
      Except.ok [] := by
    simp [put_generate_latency_plot, read_data, fsMixed, dataPath]
  have h4 : put_generate_bandwidth_plot fsMixed "bw_shmem_put.csv" "internode" "net" =
      Except.ok [] := by
    simp [put_generate_bandwidth_plot, read_data, fsMixed, dataPath]
  simp [put_generate_plots, h1, h2, h3, h4, seqGen, runGen]

/-- On `fsMixed` the sync category has no CSVs and writes nothing. -/
theorem sync_plots_fsMixed : sync_generate_plots fsMixed = ([], none) := by
  simp [sync_generate_plots, generate_sync_plot, read_data, fsMixed, dataPath,
    seqGen, runGen]

/-- C6 counterexample: with `fsMixed` the get generator hits an unhandled
missing-column failure; `main` then stops with no files at all, although
the put generator run on the same file system would write four files and
raise nothing — so the failure in one category did prevent the others
from running. -/
theorem C6_driver_abort_counterexample :
    main_run fsMixed = ([], some "Msg Size (b)") ∧
    put_generate_plots fsMixed =
      (["figures/put/put_local_latency_linear.pdf",
        "figures/put/put_local_latency_log.pdf",
        "figures/put/put_local_bandwidth_linear.pdf",
        "figures/put/put_local_bandwidth_log.pdf"], none) ∧
    sync_generate_plots fsMixed = ([], none) := by
  refine ⟨?_, put_plots_fsMixed, sync_plots_fsMixed⟩
  simp [main_run, get_plots_fsMixed, seqGen]

theorem seqGen_nil_left (b : List String × Option String) : seqGen ([], none) b = b := by
  simp [seqGen]

theorem seqGen_nil_right (a : List String × Option String) : seqGen a ([], none) = a := by
  cases a with
  | mk x y => cases y <;> simp [seqGen]

/-- A category generator whose every CSV is absent runs to completion
having written nothing. -/
theorem get_plots_of_absent (fs : FileSystem)
    (h1 : fs (dataPath "intranode" "bw_shmem_get.csv") = none)
    (h2 : fs (dataPath "internode" "bw_shmem_get.csv") = none) :
    get_generate_plots fs = ([], none) := by
  have hr1 : read_data fs "bw_shmem_get.csv" "intranode" = none := h1
  have hr2 : read_data fs "bw_shmem_get.csv" "internode" = none := h2
  simp [get_generate_plots, get_generate_latency_plot, get_generate_bandwidth_plot,
    hr1, hr2, runGen, seqGen]

theorem put_plots_of_absent (fs : FileSystem)
    (h1 : fs (dataPath "intranode" "bw_shmem_put.csv") = none)
    (h2 : fs (dataPath "internode" "bw_shmem_put.csv") = none) :
    put_generate_plots fs = ([], none) := by
  have hr1 : read_data fs "bw_shmem_put.csv" "intranode" = none := h1
  have hr2 : read_data fs "bw_shmem_put.csv" "internode" = none := h2
  simp [put_generate_plots, put_generate_latency_plot, put_generate_bandwidth_plot,
    hr1, hr2, runGen, seqGen]

theorem sync_plots_of_absent (fs : FileSystem)
    (h1 : fs (dataPath "intranode" "latency.csv") = none)
    (h2 : fs (dataPath "internode" "latency.csv") = none) :
    sync_generate_plots fs = ([], none) := by
  have hr1 : read_data fs "latency.csv" "intranode" = none := h1
  have hr2 : read_data fs "latency.csv" "internode" = none := h2
  simp [sync_generate_plots, generate_sync_plot, hr1, hr2, runGen, seqGen]

/-- On `fsPutBad` the get category loads nothing and finishes cleanly. -/
theorem get_plots_fsPutBad : get_generate_plots fsPutBad = ([], none) := by
  simp [get_generate_plots, get_generate_latency_plot, get_generate_bandwidth_plot,
    read_data, fsPutBad, dataPath, seqGen, runGen]

/-- On `fsPutBad` the put category aborts at the missing `Msg Size (b)`
column of its parsed CSV, having written nothing. -/
theorem put_plots_fsPutBad : put_generate_plots fsPutBad = ([], some "Msg Size (b)") := by
  simp [put_generate_plots, put_generate_latency_plot, put_generate_bandwidth_plot,
    read_data, fsPutBad, dataPath, dfNoSize, put_latency_plot_with_scale,
    put_deriveBandwidth, computeBandwidthColumns, bwSeries, Table.getNumCol,
    Table.getColCells, Table.hasCol, lookupCol, cellsToNums, Cell.asNum, numCol,
    seqGen, runGen]

/-- C6 amended: a handled load failure in any one category (all of that
category's CSVs missing or unparsable, so the loader returns None) does
not prevent the other category generators from running — the driver's
result is exactly the composition of the remaining two.  But an unhandled
failure inside a category generator aborts the driver: if get raises, put
and sync contribute nothing; if get completes and put raises, sync
contributes nothing and only get's files survive. -/
theorem C6_isolation_amended :
    (∀ fs : FileSystem,
      fs (dataPath "intranode" "bw_shmem_get.csv") = none →
      fs (dataPath "internode" "bw_shmem_get.csv") = none →
      main_run fs = seqGen (put_generate_plots fs) (sync_generate_plots fs)) ∧
    (∀ fs : FileSystem,
      fs (dataPath "intranode" "bw_shmem_put.csv") = none →
      fs (dataPath "internode" "bw_shmem_put.csv") = none →
      main_run fs = seqGen (get_generate_plots fs) (sync_generate_plots fs)) ∧
    (∀ fs : FileSystem,
      fs (dataPath "intranode" "latency.csv") = none →
      fs (dataPath "internode" "latency.csv") = none →
      main_run fs = seqGen (get_generate_plots fs) (put_generate_plots fs)) ∧
    (∀ (fs : FileSystem) (files : List String) (e : String),
      get_generate_plots fs = (files, some e) → main_run fs = (files, some e)) ∧
    (∀ (fs : FileSystem) (gfiles files : List String) (e : String),
      get_generate_plots fs = (gfiles, none) →
      put_generate_plots fs = (files, some e) →
      main_run fs = (gfiles ++ files, some e)) := by
  refine ⟨?_, ?_, ?_, ?_, ?_⟩
  · intro fs h1 h2
    rw [main_run, get_plots_of_absent fs h1 h2, seqGen_nil_left]
  · intro fs h1 h2
    rw [main_run, put_plots_of_absent fs h1 h2, seqGen_nil_left]
  · intro fs h1 h2
    rw [main_run, sync_plots_of_absent fs h1 h2, seqGen_nil_right]
  · intro fs files e h
    simp [main_run, h, seqGen]
  · intro fs gfiles files e hg hp
    simp [main_run, hg, hp, seqGen]

/-- C6 witness: the amended statement at the empty file system (each
handled-failure conjunct), at `fsMixed` (get raises, nothing survives) and
at `fsPutBad` (get completes, put raises, sync never contributes). -/
theorem C6_isolation_witness :
    main_run (fun _ => none) =
      seqGen (put_generate_plots (fun _ => none)) (sync_generate_plots (fun _ => none)) ∧
    main_run (fun _ => none) =
      seqGen (get_generate_plots (fun _ => none)) (sync_generate_plots (fun _ => none)) ∧
    main_run (fun _ => none) =
      seqGen (get_generate_plots (fun _ => none)) (put_generate_plots (fun _ => none)) ∧
    main_run fsMixed = ([], some "Msg Size (b)") ∧
    main_run fsPutBad = ([] ++ [], some "Msg Size (b)") :=
  ⟨C6_isolation_amended.1 (fun _ => none) rfl rfl,
   C6_isolation_amended.2.1 (fun _ => none) rfl rfl,
   C6_isolation_amended.2.2.1 (fun _ => none) rfl rfl,
   C6_isolation_amended.2.2.2.1 fsMixed [] "Msg Size (b)" get_plots_fsMixed,
   C6_isolation_amended.2.2.2.2 fsPutBad [] [] "Msg Size (b)"
     get_plots_fsPutBad put_plots_fsPutBad⟩
